import Mathlib

/-!
Shallow embedding of the buzz-scoring and label-classification engine of
`upcomingMatches.py`, together with a trace model of its rate-limited
data-acquisition layer.  Python `int` is modelled as `ℤ`, Python `float`
arithmetic on the exact values occurring here as `ℚ`, and a Python function
that may raise is modelled as `Except PyErr`.
-/

namespace UpcomingMatches

/-- Embeds `TITLE_RACE_MAX_POS = 8` (upcomingMatches.py line 29). -/
def TITLE_RACE_MAX_POS : ℤ := 8

/-- Embeds `RELEGATION_MIN_POS = 13`, base for 18-team leagues (line 30). -/
def RELEGATION_MIN_POS : ℤ := 13

/-- Embeds `CLOSE_MATCH_DISTANCE = 5` (line 31). -/
def CLOSE_MATCH_DISTANCE : ℤ := 5

/-- Embeds `CLOSE_MATCH_POINTS = 7` (line 32). -/
def CLOSE_MATCH_POINTS : ℤ := 7

/-- Embeds `UPSET_DISTANCE = 10` (line 33). -/
def UPSET_DISTANCE : ℤ := 10

/-- Embeds `REQUEST_DELAY = 6.5` seconds between requests (line 36). -/
def REQUEST_DELAY : ℚ := 13 / 2

/-- Python exceptions that the scoring engine can raise.
`zeroDivisionError` is the builtin raised by `/` on a zero divisor;
`invalidLeagueSize` is modelled from the spec (§7 error taxonomy) and is
raised nowhere in the source, which defines no such category. -/
inductive PyErr where
  | zeroDivisionError
  | invalidLeagueSize
deriving DecidableEq, Repr

/-- Embeds `FormMatch` dataclass (lines 39-45): single match result for form display. -/
structure FormMatch where
  result : String
  opponent : String
  goals_for : ℤ
  goals_against : ℤ
deriving DecidableEq, Repr

/-- Embeds `Team` dataclass (lines 48-57). -/
structure Team where
  id : ℤ
  name : String
  short_name : String
  position : ℤ
  points : ℤ
  num_teams : ℤ
  crest_url : String := ""
  form : List FormMatch := []
deriving DecidableEq, Repr

/-- Embeds `Team.buzz_score` (lines 59-62): `num_teams - position`. -/
def Team.buzz_score (t : Team) : ℤ :=
  t.num_teams - t.position

/-- Embeds `Match` dataclass (lines 86-94). -/
structure Match where
  home : Team
  away : Team
  kickoff : String
  matchday : ℤ
  is_finished : Bool := false
  home_score : ℤ := 0
  away_score : ℤ := 0
deriving DecidableEq, Repr

/-- Embeds `Match.num_teams` (lines 96-99): taken from the home team. -/
def Match.num_teams (m : Match) : ℤ :=
  m.home.num_teams

/-- Embeds `Match.base_score` (lines 101-103). -/
def Match.base_score (m : Match) : ℤ :=
  m.home.buzz_score + m.away.buzz_score

/-- Embeds `Match.position_distance` (lines 105-107). -/
def Match.position_distance (m : Match) : ℤ :=
  |m.home.position - m.away.position|

/-- Embeds `Match.points_distance` (lines 109-111). -/
def Match.points_distance (m : Match) : ℤ :=
  |m.home.points - m.away.points|

/-- Embeds `Match.closeness_bonus` (lines 113-117):
`1 + (max_distance - position_distance) / max_distance` with
`max_distance = num_teams - 1`; Python raises `ZeroDivisionError` when
`max_distance == 0`. -/
def Match.closeness_bonus (m : Match) : Except PyErr ℚ :=
  let max_distance : ℤ := m.num_teams - 1
  if max_distance = 0 then Except.error PyErr.zeroDivisionError
  else Except.ok (1 + ((max_distance - m.position_distance : ℤ) : ℚ) / (max_distance : ℚ))

/-- Embeds `Match.max_buzz` (lines 119-124): `4 * (num_teams - 1)`. -/
def Match.max_buzz (m : Match) : ℚ :=
  ((4 * (m.num_teams - 1) : ℤ) : ℚ)

/-- Embeds `Match.buzz_raw` (lines 126-129): `base_score * closeness_bonus`. -/
def Match.buzz_raw (m : Match) : Except PyErr ℚ := do
  let c ← m.closeness_bonus
  return ((m.base_score : ℤ) : ℚ) * c

/-- Embeds `Match.buzz` (lines 131-134): `(buzz_raw / max_buzz) * 100`; Python
raises `ZeroDivisionError` when `max_buzz == 0` (reached only if
`closeness_bonus` did not already raise, i.e. never, but modelled anyway). -/
def Match.buzz (m : Match) : Except PyErr ℚ := do
  let raw ← m.buzz_raw
  if m.max_buzz = 0 then Except.error PyErr.zeroDivisionError
  else return raw / m.max_buzz * 100

/-- Embeds `Match.titan_slayed` (lines 136-149): underdog won a finished match with
position distance at least `UPSET_DISTANCE`.  When the positions are equal the
`else` branch of the source makes the away side the favorite. -/
def Match.titan_slayed (m : Match) : Bool :=
  if m.is_finished = false then false
  else
    let scores :=
      if m.home.position < m.away.position then (m.home_score, m.away_score)
      else (m.away_score, m.home_score)
    decide (scores.2 > scores.1 ∧ m.position_distance ≥ UPSET_DISTANCE)

/-- Embeds `Match.relegation_min_pos` (lines 151-157):
`RELEGATION_MIN_POS + (num_teams - 18)`. -/
def Match.relegation_min_pos (m : Match) : ℤ :=
  RELEGATION_MIN_POS + (m.num_teams - 18)

/-- Embeds `Match.labels` (lines 159-187), in source order.  `highest_pos` is the
numerically smaller (better) position, `lowest_pos` the larger one, exactly
as the source names them. -/
def Match.labels (m : Match) : List String :=
  let highest_pos := min m.home.position m.away.position
  let lowest_pos := max m.home.position m.away.position
  (if m.titan_slayed = true then ["⚔️ TITAN SLAYED"] else []) ++
  (if lowest_pos ≤ TITLE_RACE_MAX_POS ∧ m.position_distance ≤ CLOSE_MATCH_DISTANCE then
    ["🏆 Title Race"] else []) ++
  (if highest_pos ≥ m.relegation_min_pos ∧ m.position_distance ≤ CLOSE_MATCH_DISTANCE then
    ["🔥 Relegation Battle"] else []) ++
  (if m.points_distance ≤ CLOSE_MATCH_POINTS then ["🎯 Head-to-Head"] else []) ++
  (if m.position_distance ≥ UPSET_DISTANCE then ["⚡ Upset Potential"] else [])

/-- Validity constraints of the data model (spec §3): positions within
`1..num_teams` of each team's league and nonnegative points. -/
def valid_match (m : Match) : Prop :=
  1 ≤ m.home.position ∧ m.home.position ≤ m.home.num_teams ∧
  1 ≤ m.away.position ∧ m.away.position ≤ m.away.num_teams ∧
  0 ≤ m.home.points ∧ 0 ≤ m.away.points

instance (m : Match) : Decidable (valid_match m) := by
  unfold valid_match; infer_instance

instance {ε α : Type} [DecidableEq ε] [DecidableEq α] : DecidableEq (Except ε α) := fun x y =>
  match x, y with
  | Except.ok a, Except.ok b => decidable_of_iff (a = b) (by simp)
  | Except.error a, Except.error b => decidable_of_iff (a = b) (by simp)
  | Except.ok _, Except.error _ => isFalse (fun h => by cases h)
  | Except.error _, Except.ok _ => isFalse (fun h => by cases h)

lemma mem_ite_singleton {c : Prop} [Decidable c] {s x : String} :
    s ∈ (if c then [x] else []) ↔ c ∧ s = x := by
  split <;> simp_all

/-- Membership in `Match.labels`, spelled out branch by branch. -/
lemma mem_labels_iff (m : Match) (s : String) :
    s ∈ m.labels ↔
      (m.titan_slayed = true ∧ s = "⚔️ TITAN SLAYED") ∨
      ((max m.home.position m.away.position ≤ TITLE_RACE_MAX_POS ∧
        m.position_distance ≤ CLOSE_MATCH_DISTANCE) ∧ s = "🏆 Title Race") ∨
      ((min m.home.position m.away.position ≥ m.relegation_min_pos ∧
        m.position_distance ≤ CLOSE_MATCH_DISTANCE) ∧ s = "🔥 Relegation Battle") ∨
      ((m.points_distance ≤ CLOSE_MATCH_POINTS) ∧ s = "🎯 Head-to-Head") ∨
      ((m.position_distance ≥ UPSET_DISTANCE) ∧ s = "⚡ Upset Potential") := by
  simp only [Match.labels, List.mem_append, mem_ite_singleton]
  tauto

lemma titan_mem (m : Match) :
    "⚔️ TITAN SLAYED" ∈ m.labels ↔ m.titan_slayed = true := by
  rw [mem_labels_iff]
  constructor
  · rintro (⟨h, hs⟩ | ⟨h, hs⟩ | ⟨h, hs⟩ | ⟨h, hs⟩ | ⟨h, hs⟩)
    · exact h
    · exact absurd hs (by decide)
    · exact absurd hs (by decide)
    · exact absurd hs (by decide)
    · exact absurd hs (by decide)
  · intro h
    exact Or.inl ⟨h, rfl⟩

lemma title_race_mem (m : Match) :
    "🏆 Title Race" ∈ m.labels ↔
      (max m.home.position m.away.position ≤ TITLE_RACE_MAX_POS ∧
       m.position_distance ≤ CLOSE_MATCH_DISTANCE) := by
  rw [mem_labels_iff]
  constructor
  · rintro (⟨h, hs⟩ | ⟨h, hs⟩ | ⟨h, hs⟩ | ⟨h, hs⟩ | ⟨h, hs⟩)
    · exact absurd hs (by decide)
    · exact h
    · exact absurd hs (by decide)
    · exact absurd hs (by decide)
    · exact absurd hs (by decide)
  · intro h
    exact Or.inr (Or.inl ⟨h, rfl⟩)

lemma relegation_mem (m : Match) :
    "🔥 Relegation Battle" ∈ m.labels ↔
      (min m.home.position m.away.position ≥ m.relegation_min_pos ∧
       m.position_distance ≤ CLOSE_MATCH_DISTANCE) := by
  rw [mem_labels_iff]
  constructor
  · rintro (⟨h, hs⟩ | ⟨h, hs⟩ | ⟨h, hs⟩ | ⟨h, hs⟩ | ⟨h, hs⟩)
    · exact absurd hs (by decide)
    · exact absurd hs (by decide)
    · exact h
    · exact absurd hs (by decide)
    · exact absurd hs (by decide)
  · intro h
    exact Or.inr (Or.inr (Or.inl ⟨h, rfl⟩))

lemma head_to_head_mem (m : Match) :
    "🎯 Head-to-Head" ∈ m.labels ↔ m.points_distance ≤ CLOSE_MATCH_POINTS := by
  rw [mem_labels_iff]
  constructor
  · rintro (⟨h, hs⟩ | ⟨h, hs⟩ | ⟨h, hs⟩ | ⟨h, hs⟩ | ⟨h, hs⟩)
    · exact absurd hs (by decide)
    · exact absurd hs (by decide)
    · exact absurd hs (by decide)
    · exact h
    · exact absurd hs (by decide)
  · intro h
    exact Or.inr (Or.inr (Or.inr (Or.inl ⟨h, rfl⟩)))

lemma upset_potential_mem (m : Match) :
    "⚡ Upset Potential" ∈ m.labels ↔ m.position_distance ≥ UPSET_DISTANCE := by
  rw [mem_labels_iff]
  constructor
  · rintro (⟨h, hs⟩ | ⟨h, hs⟩ | ⟨h, hs⟩ | ⟨h, hs⟩ | ⟨h, hs⟩)
    · exact absurd hs (by decide)
    · exact absurd hs (by decide)
    · exact absurd hs (by decide)
    · exact absurd hs (by decide)
    · exact h
  · intro h
    exact Or.inr (Or.inr (Or.inr (Or.inr ⟨h, rfl⟩)))

lemma position_distance_ne_of_ge (m : Match) (h : UPSET_DISTANCE ≤ m.position_distance) :
    m.home.position ≠ m.away.position := by
  intro he
  simp only [Match.position_distance, he, sub_self, abs_zero] at h
  exact absurd h (by decide)

/-- The source's `titan_slayed` predicate, restated the way the spec phrases
it: the team at the numerically larger position outscores the other. -/
lemma titan_slayed_eq_true_iff (m : Match) :
    m.titan_slayed = true ↔
      (m.is_finished = true ∧ UPSET_DISTANCE ≤ m.position_distance ∧
       ((m.away.position < m.home.position ∧ m.away_score < m.home_score) ∨
        (m.home.position < m.away.position ∧ m.home_score < m.away_score))) := by
  unfold Match.titan_slayed
  cases hf : m.is_finished with
  | false => simp
  | true =>
    simp only [Bool.true_eq_false, if_false, decide_eq_true_eq, true_and]
    split
    case isTrue hlt =>
      constructor
      · rintro ⟨hsc, hd⟩
        exact ⟨hd, Or.inr ⟨hlt, hsc⟩⟩
      · rintro ⟨hd, (⟨hpos, _⟩ | ⟨_, hsc⟩)⟩
        · exact absurd hlt (lt_asymm hpos)
        · exact ⟨hsc, hd⟩
    case isFalse hge =>
      constructor
      · rintro ⟨hsc, hd⟩
        have hne := position_distance_ne_of_ge m hd
        have hlt : m.away.position < m.home.position :=
          lt_of_le_of_ne (le_of_not_lt hge) (fun he => hne he.symm)
        exact ⟨hd, Or.inl ⟨hlt, hsc⟩⟩
      · rintro ⟨hd, (⟨_, hsc⟩ | ⟨hpos, _⟩)⟩
        · exact ⟨hsc, hd⟩
        · exact absurd hpos hge

/-- Convenient team constructor for concrete test fixtures. -/
def mkTeam (pos pts n : ℤ) : Team :=
  { id := pos, name := "Team", short_name := "Team", position := pos, points := pts,
    num_teams := n }

/-- An 18-team league, positions 4 and 9: one team inside the top 8, distance 5. -/
def title_cex : Match :=
  { home := mkTeam 4 30 18, away := mkTeam 9 25 18, kickoff := "TBD", matchday := 1 }

/-- C1: counterexample.  Positions 4 and 9 in an 18-team league satisfy
`min ≤ TITLE_RACE_MAX_POS` and `position_distance ≤ CLOSE_MATCH_DISTANCE`,
yet the source assigns no Title Race label, because line 171 tests
`lowest_pos = max(home.position, away.position) <= TITLE_RACE_MAX_POS`. -/
theorem title_race_min_pos_cex :
    (min title_cex.home.position title_cex.away.position ≤ TITLE_RACE_MAX_POS ∧
     title_cex.position_distance ≤ CLOSE_MATCH_DISTANCE) ∧
    "🏆 Title Race" ∉ title_cex.labels := by decide

/-- C1 (amended): the Title Race label is assigned exactly when the
worse-placed team satisfies `max(home.position, away.position) ≤
TITLE_RACE_MAX_POS` (both teams inside the top 8) and
`position_distance ≤ CLOSE_MATCH_DISTANCE`. -/
theorem title_race_label_iff (m : Match) :
    "🏆 Title Race" ∈ m.labels ↔
      (max m.home.position m.away.position ≤ TITLE_RACE_MAX_POS ∧
       m.position_distance ≤ CLOSE_MATCH_DISTANCE) :=
  title_race_mem m

/-- An 18-team league, positions 12 and 14: one team at or below threshold 13,
distance 2. -/
def releg_cex : Match :=
  { home := mkTeam 12 10 18, away := mkTeam 14 12 18, kickoff := "TBD", matchday := 1 }

/-- C2: counterexample.  Positions 12 and 14 in an 18-team league satisfy
`max ≥ relegation_threshold = 13` and `position_distance ≤
CLOSE_MATCH_DISTANCE`, yet the source assigns no Relegation Battle label,
because line 175 tests `highest_pos = min(home.position, away.position) >=
relegation_min_pos`. -/
theorem relegation_max_pos_cex :
    (max releg_cex.home.position releg_cex.away.position ≥ releg_cex.relegation_min_pos ∧
     releg_cex.position_distance ≤ CLOSE_MATCH_DISTANCE) ∧
    "🔥 Relegation Battle" ∉ releg_cex.labels := by decide

/-- C2 (amended): the Relegation Battle label is assigned exactly when the
better-placed team satisfies `min(home.position, away.position) ≥
relegation_threshold` (both teams at or below the threshold) and
`position_distance ≤ CLOSE_MATCH_DISTANCE`, with `relegation_threshold =
13 + (num_teams - 18)`. -/
theorem relegation_label_iff (m : Match) :
    "🔥 Relegation Battle" ∈ m.labels ↔
      (min m.home.position m.away.position ≥ m.relegation_min_pos ∧
       m.position_distance ≤ CLOSE_MATCH_DISTANCE) :=
  relegation_mem m

/-- C5: the TITAN SLAYED label is assigned if and only if the match is
finished, the team at the numerically larger (worse) position strictly
outscores the better-placed team, and the position distance is at least
`UPSET_DISTANCE`; a drawn score or an unfinished match never yields it. -/
theorem titan_slayed_label_iff (m : Match) :
    "⚔️ TITAN SLAYED" ∈ m.labels ↔
      (m.is_finished = true ∧ UPSET_DISTANCE ≤ m.position_distance ∧
       ((m.away.position < m.home.position ∧ m.away_score < m.home_score) ∨
        (m.home.position < m.away.position ∧ m.home_score < m.away_score))) :=
  (titan_mem m).trans (titan_slayed_eq_true_iff m)

/-- C6: counterexample.  Title Race demands `position_distance ≤ 5` while
Upset Potential demands `position_distance ≥ 10`, so no valid match carries
both: the pair is mutually exclusive, refuting "no two labels are mutually
exclusive". -/
theorem labels_not_pairwise_compatible :
    ¬ ∃ m : Match, valid_match m ∧
      "🏆 Title Race" ∈ m.labels ∧ "⚡ Upset Potential" ∈ m.labels := by
  rintro ⟨m, -, ht, hu⟩
  rw [title_race_mem] at ht
  rw [upset_potential_mem] at hu
  have h5 := ht.2
  simp only [CLOSE_MATCH_DISTANCE, UPSET_DISTANCE] at h5 hu
  omega

/-- An 18-team league: position 12 beats position 1 in a finished match 2:1,
with a points distance of 5. -/
def multi_label_upset : Match :=
  { home := mkTeam 12 10 18, away := mkTeam 1 5 18, kickoff := "TBD", matchday := 1,
    is_finished := true, home_score := 2, away_score := 1 }

/-- A 12-team league: positions 7 and 8 (threshold `13 + (12 - 18) = 7`), points
20 and 18. -/
def multi_label_close : Match :=
  { home := mkTeam 7 20 12, away := mkTeam 8 18 12, kickoff := "TBD", matchday := 1 }

/-- C6 (amended): the six label pairs that do not combine a close-match label
(Title Race, Relegation Battle) with a distance-10 label (Upset Potential,
TITAN SLAYED) can each co-occur on a valid match — witnessed by one match
carrying TITAN SLAYED + Head-to-Head + Upset Potential and one carrying
Title Race + Relegation Battle + Head-to-Head — while those four mixed pairs
are mutually exclusive because `position_distance ≤ CLOSE_MATCH_DISTANCE`
contradicts `position_distance ≥ UPSET_DISTANCE`; consequently no match
carries all five labels. -/
theorem labels_compatibility :
    (∃ m : Match, valid_match m ∧ "⚔️ TITAN SLAYED" ∈ m.labels ∧
      "🎯 Head-to-Head" ∈ m.labels ∧ "⚡ Upset Potential" ∈ m.labels) ∧
    (∃ m : Match, valid_match m ∧ "🏆 Title Race" ∈ m.labels ∧
      "🔥 Relegation Battle" ∈ m.labels ∧ "🎯 Head-to-Head" ∈ m.labels) ∧
    (∀ m : Match, ¬("🏆 Title Race" ∈ m.labels ∧ "⚡ Upset Potential" ∈ m.labels)) ∧
    (∀ m : Match, ¬("🏆 Title Race" ∈ m.labels ∧ "⚔️ TITAN SLAYED" ∈ m.labels)) ∧
    (∀ m : Match, ¬("🔥 Relegation Battle" ∈ m.labels ∧ "⚡ Upset Potential" ∈ m.labels)) ∧
    (∀ m : Match, ¬("🔥 Relegation Battle" ∈ m.labels ∧ "⚔️ TITAN SLAYED" ∈ m.labels)) ∧
    ¬ ∃ m : Match, "⚔️ TITAN SLAYED" ∈ m.labels ∧ "🏆 Title Race" ∈ m.labels ∧
      "🔥 Relegation Battle" ∈ m.labels ∧ "🎯 Head-to-Head" ∈ m.labels ∧
      "⚡ Upset Potential" ∈ m.labels := by
  refine ⟨⟨multi_label_upset, by decide, by decide, by decide, by decide⟩,
    ⟨multi_label_close, by decide, by decide, by decide, by decide⟩, ?_, ?_, ?_, ?_, ?_⟩
  · rintro m ⟨ht, hu⟩
    rw [title_race_mem] at ht
    rw [upset_potential_mem] at hu
    have h5 := ht.2
    simp only [CLOSE_MATCH_DISTANCE, UPSET_DISTANCE] at h5 hu
    omega
  · rintro m ⟨ht, hs⟩
    rw [title_race_mem] at ht
    rw [titan_mem, titan_slayed_eq_true_iff] at hs
    have h5 := ht.2
    have h10 := hs.2.1
    simp only [CLOSE_MATCH_DISTANCE, UPSET_DISTANCE] at h5 h10
    omega
  · rintro m ⟨hr, hu⟩
    rw [relegation_mem] at hr
    rw [upset_potential_mem] at hu
    have h5 := hr.2
    simp only [CLOSE_MATCH_DISTANCE, UPSET_DISTANCE] at h5 hu
    omega
  · rintro m ⟨hr, hs⟩
    rw [relegation_mem] at hr
    rw [titan_mem, titan_slayed_eq_true_iff] at hs
    have h5 := hr.2
    have h10 := hs.2.1
    simp only [CLOSE_MATCH_DISTANCE, UPSET_DISTANCE] at h5 h10
    omega
  · rintro ⟨m, -, ht, -, -, hu⟩
    rw [title_race_mem] at ht
    rw [upset_potential_mem] at hu
    have h5 := ht.2
    simp only [CLOSE_MATCH_DISTANCE, UPSET_DISTANCE] at h5 hu
    omega

/-- C10: whenever the TITAN SLAYED label is present, the Upset Potential
label is present as well, because a realized upset requires
`position_distance ≥ UPSET_DISTANCE`, which is itself the Upset Potential
condition and is evaluated independently of the finished flag. -/
theorem titan_implies_upset_potential (m : Match)
    (h : "⚔️ TITAN SLAYED" ∈ m.labels) : "⚡ Upset Potential" ∈ m.labels := by
  rw [titan_mem, titan_slayed_eq_true_iff] at h
  exact (upset_potential_mem m).mpr h.2.1

/-- A 20-team league: position 15 beats position 2 in a finished match 3:0. -/
def titan_upset_witness_match : Match :=
  { home := mkTeam 15 12 20, away := mkTeam 2 40 20, kickoff := "TBD", matchday := 1,
    is_finished := true, home_score := 3, away_score := 0 }

theorem titan_implies_upset_potential_witness :
    "⚔️ TITAN SLAYED" ∈ titan_upset_witness_match.labels ∧
    "⚡ Upset Potential" ∈ titan_upset_witness_match.labels :=
  ⟨by decide, titan_implies_upset_potential titan_upset_witness_match (by decide)⟩

/-- Degenerate one-team league. -/
def single_team_match : Match :=
  { home := mkTeam 1 0 1, away := mkTeam 1 0 1, kickoff := "TBD", matchday := 1 }

/-- C4: counterexample.  With `num_teams = 1` the buzz computation fails with
the builtin `ZeroDivisionError` raised by the division in `closeness_bonus`
(line 117); the source defines no `InvalidLeagueSize` category, so the error
is not the categorized one the claim requires. -/
theorem buzz_num_teams_one_cex :
    single_team_match.num_teams = 1 ∧
    single_team_match.buzz = Except.error PyErr.zeroDivisionError ∧
    single_team_match.buzz ≠ Except.error PyErr.invalidLeagueSize := by decide

/-- C4 (amended): for any match in a one-team league the buzz computation
fails fast with an uncategorized `ZeroDivisionError` — no NaN and no
division-by-zero value propagates, but no `InvalidLeagueSize` error exists. -/
theorem buzz_num_teams_one_zero_div (m : Match) (h : m.home.num_teams = 1) :
    m.buzz = Except.error PyErr.zeroDivisionError := by
  simp [Match.buzz, Match.buzz_raw, Match.closeness_bonus, Match.num_teams, h,
    Bind.bind, Except.bind]

theorem buzz_num_teams_one_zero_div_witness :
    single_team_match.home.num_teams = 1 ∧
    single_team_match.buzz = Except.error PyErr.zeroDivisionError :=
  ⟨rfl, buzz_num_teams_one_zero_div single_team_match rfl⟩

/-- Home/away swap of a match, also swapping the final scores. -/
def Match.swap_sides (m : Match) : Match :=
  { home := m.away, away := m.home, kickoff := m.kickoff, matchday := m.matchday,
    is_finished := m.is_finished, home_score := m.away_score, away_score := m.home_score }

/-- C9: the buzz score is symmetric in the two teams — swapping home and away
(within one league, so both teams carry the same `num_teams`) leaves the
result unchanged, including the error case. -/
theorem buzz_symm (m : Match) (h : m.home.num_teams = m.away.num_teams) :
    m.swap_sides.buzz = m.buzz := by
  unfold Match.buzz Match.buzz_raw Match.closeness_bonus Match.max_buzz
  unfold Match.num_teams Match.base_score Match.position_distance Team.buzz_score
  unfold Match.swap_sides
  simp only
  rw [← h, abs_sub_comm m.away.position m.home.position,
    add_comm (m.home.num_teams - m.away.position) (m.home.num_teams - m.home.position)]

/-- An 18-team league, positions 3 and 11. -/
def symm_witness_match : Match :=
  { home := mkTeam 3 30 18, away := mkTeam 11 14 18, kickoff := "TBD", matchday := 1 }

theorem buzz_symm_witness :
    symm_witness_match.home.num_teams = symm_witness_match.away.num_teams ∧
    symm_witness_match.swap_sides.buzz = symm_witness_match.buzz :=
  ⟨rfl, buzz_symm symm_witness_match rfl⟩

lemma closeness_bonus_ok (m : Match) (hne : (m.num_teams - 1 : ℤ) ≠ 0) :
    m.closeness_bonus = Except.ok
      (1 + ((m.num_teams - 1 - m.position_distance : ℤ) : ℚ) /
        ((m.num_teams - 1 : ℤ) : ℚ)) := by
  unfold Match.closeness_bonus
  rw [if_neg hne]

lemma buzz_raw_ok (m : Match) (hne : (m.num_teams - 1 : ℤ) ≠ 0) :
    m.buzz_raw = Except.ok (((m.base_score : ℤ) : ℚ) *
      (1 + ((m.num_teams - 1 - m.position_distance : ℤ) : ℚ) /
        ((m.num_teams - 1 : ℤ) : ℚ))) := by
  unfold Match.buzz_raw
  rw [closeness_bonus_ok m hne]
  simp [Bind.bind, Except.bind, Pure.pure, Except.pure]

lemma max_buzz_ne_zero (m : Match) (hne : (m.num_teams - 1 : ℤ) ≠ 0) :
    m.max_buzz ≠ 0 := by
  unfold Match.max_buzz
  exact_mod_cast mul_ne_zero (by norm_num) hne

lemma buzz_ok (m : Match) (hne : (m.num_teams - 1 : ℤ) ≠ 0) :
    m.buzz = Except.ok (((m.base_score : ℤ) : ℚ) *
      (1 + ((m.num_teams - 1 - m.position_distance : ℤ) : ℚ) /
        ((m.num_teams - 1 : ℤ) : ℚ)) / m.max_buzz * 100) := by
  unfold Match.buzz
  rw [buzz_raw_ok m hne]
  simp [Bind.bind, Except.bind, Pure.pure, Except.pure, if_neg (max_buzz_ne_zero m hne)]

/-- Core inequality behind the normalization: with `N = num_teams - 1`,
`u`, `v` the two buzz components, the raw buzz `(u + v) * (2N - |u - v|) / N`
never exceeds `4N`, i.e. its numerator never exceeds `4N²`. -/
lemma raw_le_max (N u v : ℚ) (hu0 : 0 ≤ u) (huN : u ≤ N) (hv0 : 0 ≤ v) (hvN : v ≤ N) :
    (u + v) * (2 * N - |u - v|) ≤ 4 * N ^ 2 := by
  rcases abs_cases (u - v) with ⟨he, _⟩ | ⟨he, _⟩ <;> rw [he]
  · nlinarith [sq_nonneg (u - N),
      mul_nonneg (sub_nonneg.mpr hvN) (by linarith : (0:ℚ) ≤ 3 * N + v)]
  · nlinarith [sq_nonneg (v - N),
      mul_nonneg (sub_nonneg.mpr huN) (by linarith : (0:ℚ) ≤ 3 * N + u)]

/-- Bounds of the buzz value as a pure fact about rationals, stated in the
exact shape produced by `buzz_ok`. -/
lemma buzz_value_bounds (np nq nn : ℚ) (hn2 : 2 ≤ nn)
    (hp1 : 1 ≤ np) (hp2 : np ≤ nn) (hq1 : 1 ≤ nq) (hq2 : nq ≤ nn) :
    0 ≤ ((nn - np) + (nn - nq)) * (1 + ((nn - 1) - |np - nq|) / (nn - 1)) /
      (4 * (nn - 1)) * 100 ∧
    ((nn - np) + (nn - nq)) * (1 + ((nn - 1) - |np - nq|) / (nn - 1)) /
      (4 * (nn - 1)) * 100 ≤ 100 ∧
    ((nn - np) + (nn - nq)) * (1 + ((nn - 1) - |np - nq|) / (nn - 1)) ≤ 4 * (nn - 1) ∧
    (np = 1 ∧ nq = 1 →
      ((nn - np) + (nn - nq)) * (1 + ((nn - 1) - |np - nq|) / (nn - 1)) /
        (4 * (nn - 1)) * 100 = 100) := by
  have hN : (0:ℚ) < nn - 1 := by linarith
  have hdd : |np - nq| = |(nn - np) - (nn - nq)| := by
    rw [show (nn - np) - (nn - nq) = nq - np by ring, abs_sub_comm]
  have hd0 : 0 ≤ |np - nq| := abs_nonneg _
  have hdN : |np - nq| ≤ nn - 1 := by
    rw [abs_le]
    constructor <;> linarith
  have hcl : 1 + ((nn - 1) - |np - nq|) / (nn - 1) =
      (2 * (nn - 1) - |np - nq|) / (nn - 1) := by
    field_simp
    ring
  have key : ((nn - np) + (nn - nq)) * (2 * (nn - 1) - |np - nq|) ≤ 4 * (nn - 1) ^ 2 := by
    rw [hdd]
    exact raw_le_max (nn - 1) (nn - np) (nn - nq)
      (by linarith) (by linarith) (by linarith) (by linarith)
  have hraw_le : ((nn - np) + (nn - nq)) * (1 + ((nn - 1) - |np - nq|) / (nn - 1)) ≤
      4 * (nn - 1) := by
    rw [hcl, ← mul_div_assoc, div_le_iff₀ hN]
    nlinarith [key]
  have hraw_nonneg : 0 ≤ ((nn - np) + (nn - nq)) *
      (1 + ((nn - 1) - |np - nq|) / (nn - 1)) := by
    rw [hcl]
    apply mul_nonneg (by linarith)
    apply div_nonneg (by linarith) hN.le
  refine ⟨?_, ?_, hraw_le, ?_⟩
  · apply mul_nonneg _ (by norm_num)
    exact div_nonneg hraw_nonneg (by linarith)
  · have h1 : ((nn - np) + (nn - nq)) * (1 + ((nn - 1) - |np - nq|) / (nn - 1)) /
        (4 * (nn - 1)) ≤ 1 := (div_le_one (by linarith)).mpr hraw_le
    nlinarith [h1]
  · rintro ⟨e1, e2⟩
    rw [e1, e2]
    rw [show nn - 1 - |(1:ℚ) - 1| = nn - 1 by simp]
    field_simp
    ring

/-- C3: for a valid league of at least two teams and valid positions, the
buzz score evaluates without error to a value in `[0, 100]`, equals exactly
`100` when both teams are in position 1, and the raw buzz never exceeds
`max_buzz = 4 * (num_teams - 1)`. -/
theorem buzz_score_bounds (m : Match) (n : ℤ)
    (hn2 : 2 ≤ n) (hhn : m.home.num_teams = n) (han : m.away.num_teams = n)
    (hp1 : 1 ≤ m.home.position) (hp2 : m.home.position ≤ n)
    (hq1 : 1 ≤ m.away.position) (hq2 : m.away.position ≤ n) :
    ∃ s r, m.buzz = Except.ok s ∧ m.buzz_raw = Except.ok r ∧
      0 ≤ s ∧ s ≤ 100 ∧ r ≤ m.max_buzz ∧
      ((m.home.position = 1 ∧ m.away.position = 1) → s = 100) := by
  have hnum : m.num_teams = n := hhn
  have hne : (m.num_teams - 1 : ℤ) ≠ 0 := by rw [hnum]; omega
  have hbaseQ : ((m.base_score : ℤ) : ℚ) =
      ((n : ℚ) - (m.home.position : ℚ)) + ((n : ℚ) - (m.away.position : ℚ)) := by
    unfold Match.base_score Team.buzz_score
    rw [hhn, han]
    push_cast
    ring
  have hclQ : ((m.num_teams - 1 - m.position_distance : ℤ) : ℚ) =
      ((n : ℚ) - 1) - |(m.home.position : ℚ) - (m.away.position : ℚ)| := by
    unfold Match.position_distance
    rw [hnum]
    push_cast
    ring
  have hNQ : ((m.num_teams - 1 : ℤ) : ℚ) = (n : ℚ) - 1 := by
    rw [hnum]
    push_cast
    ring
  have hMB : m.max_buzz = 4 * ((n : ℚ) - 1) := by
    unfold Match.max_buzz
    rw [hnum]
    push_cast
    ring
  obtain ⟨hb0, hb100, hrle, hbeq⟩ :=
    buzz_value_bounds (m.home.position : ℚ) (m.away.position : ℚ) (n : ℚ)
      (by exact_mod_cast hn2) (by exact_mod_cast hp1) (by exact_mod_cast hp2)
      (by exact_mod_cast hq1) (by exact_mod_cast hq2)
  refine ⟨_, _, buzz_ok m hne, buzz_raw_ok m hne, ?_, ?_, ?_, ?_⟩
  · rw [hbaseQ, hclQ, hNQ, hMB]
    exact hb0
  · rw [hbaseQ, hclQ, hNQ, hMB]
    exact hb100
  · rw [hbaseQ, hclQ, hNQ, hMB]
    exact hrle
  · rintro ⟨e1, e2⟩
    rw [hbaseQ, hclQ, hNQ, hMB]
    exact hbeq ⟨by exact_mod_cast congrArg (Int.cast : ℤ → ℚ) e1,
      by exact_mod_cast congrArg (Int.cast : ℤ → ℚ) e2⟩

/-- A 20-team league, both teams in first position (the maximum-buzz pairing). -/
def top_pair_match : Match :=
  { home := mkTeam 1 50 20, away := mkTeam 1 50 20, kickoff := "TBD", matchday := 1 }

theorem buzz_score_bounds_witness :
    (2 ≤ (20:ℤ)) ∧
    ∃ s r, top_pair_match.buzz = Except.ok s ∧ top_pair_match.buzz_raw = Except.ok r ∧
      0 ≤ s ∧ s ≤ 100 ∧ r ≤ top_pair_match.max_buzz ∧
      ((top_pair_match.home.position = 1 ∧ top_pair_match.away.position = 1) → s = 100) :=
  ⟨by norm_num,
    buzz_score_bounds top_pair_match 20 (by norm_num) rfl rfl
      (by norm_num [top_pair_match, mkTeam]) (by norm_num [top_pair_match, mkTeam])
      (by norm_num [top_pair_match, mkTeam]) (by norm_num [top_pair_match, mkTeam])⟩

/-- Raw team record inside an api response (`homeTeam`/`awayTeam` fields),
with the optional `shortName`. -/
structure RawTeam where
  id : ℤ
  name : String
  shortName : Option String := none
deriving DecidableEq, Repr

/-- Raw finished-match record consumed by `fetch_team_form_cached`
(lines 314-319): team blocks plus the full-time score, whose components may
be `None`. -/
structure RawMatch where
  homeTeam : RawTeam
  awayTeam : RawTeam
  home_goals : Option ℤ
  away_goals : Option ℤ
deriving DecidableEq, Repr

/-- Embeds `.get("shortName", ...["name"])` fallback (lines 316-317). -/
def RawTeam.short (t : RawTeam) : String :=
  t.shortName.getD t.name

/-- Loop body of `fetch_team_form_cached` (lines 314-341): `continue` on a
missing goal count, else classify W/L/D from the given team's perspective. -/
def form_entry_of_raw (team_id : ℤ) (rm : RawMatch) : Option FormMatch :=
  match rm.home_goals, rm.away_goals with
  | some home_goals, some away_goals =>
    let is_home := rm.homeTeam.id = team_id
    let opponent := if is_home then rm.awayTeam.short else rm.homeTeam.short
    let goals_for := if is_home then home_goals else away_goals
    let goals_against := if is_home then away_goals else home_goals
    let result :=
      if goals_for > goals_against then "W"
      else if goals_for < goals_against then "L"
      else "D"
    some { result := result, opponent := opponent, goals_for := goals_for,
           goals_against := goals_against }
  | _, _ => none

/-- The parsing loop of `fetch_team_form_cached` over `matches[:5]`
(lines 313-341).  The Python dicts it accumulates are converted one-for-one
into `FormMatch` by `compute_team_form` (line 356), so the dict stage is
collapsed here. -/
def parse_form (team_id : ℤ) (data : List RawMatch) : List FormMatch :=
  (data.take 5).filterMap (form_entry_of_raw team_id)

/-- Embeds `fetch_team_form_cached` (lines 298-346) with the outbound api call
injected as a parameter: any failure of the call is caught by the
`except Exception` clause and degrades to the empty form.  The wall-clock
timestamp half of the Python return value is elided. -/
def fetch_team_form_cached (api : ℤ → Except String (List RawMatch)) (team_id : ℤ) :
    List FormMatch :=
  match api team_id with
  | Except.ok data => parse_form team_id data
  | Except.error _ => []

/-- Embeds `compute_team_form` (lines 349-362): iterate over all teams attaching each
team's fetched form; `Except`-valued to record whether any exception escapes
the loop. -/
def compute_team_form (api : ℤ → Except String (List RawMatch)) :
    List (ℤ × Team) → Except String (List (ℤ × Team))
  | [] => Except.ok []
  | (team_id, team) :: rest => do
    let fd := fetch_team_form_cached api team_id
    let rest2 ← compute_team_form api rest
    return (team_id, { team with form := fd }) :: rest2

/-- C8: if the api call fails for exactly one team, that team's form degrades
to the empty sequence, every other team's form is populated from its own
lookup, and the pass over all teams completes without raising. -/
theorem one_team_form_failure_tolerated (api : ℤ → Except String (List RawMatch))
    (data : ℤ → List RawMatch) (teams : List (ℤ × Team)) (t0 : ℤ) (e : String)
    (hfail : api t0 = Except.error e)
    (hok : ∀ id, id ≠ t0 → api id = Except.ok (data id)) :
    compute_team_form api teams = Except.ok (teams.map (fun p =>
      (p.1, { p.2 with form := if p.1 = t0 then [] else parse_form p.1 (data p.1) }))) := by
  induction teams with
  | nil => rfl
  | cons p rest ih =>
    obtain ⟨tid, team⟩ := p
    have hfetch : fetch_team_form_cached api tid =
        (if tid = t0 then [] else parse_form tid (data tid)) := by
      by_cases h : tid = t0
      · rw [if_pos h, h]
        unfold fetch_team_form_cached
        rw [hfail]
      · rw [if_neg h]
        unfold fetch_team_form_cached
        rw [hok tid h]
    simp only [compute_team_form, Bind.bind, Except.bind, ih, Pure.pure, Except.pure,
      hfetch, List.map_cons]

def form_api_w : ℤ → Except String (List RawMatch) := fun id =>
  if id = 1 then Except.error ("Timeout")
  else Except.ok [{ homeTeam := { id := id, name := "Us" },
                    awayTeam := { id := 99, name := "Opponent", shortName := some ("OPP") },
                    home_goals := some 2, away_goals := some 1 }]

def form_data_w : ℤ → List RawMatch := fun id =>
  [{ homeTeam := { id := id, name := "Us" },
     awayTeam := { id := 99, name := "Opponent", shortName := some ("OPP") },
     home_goals := some 2, away_goals := some 1 }]

def form_teams_w : List (ℤ × Team) := [(1, mkTeam 1 10 18), (2, mkTeam 2 9 18)]

theorem one_team_form_failure_tolerated_witness :
    form_api_w 1 = Except.error ("Timeout") ∧
    compute_team_form form_api_w form_teams_w = Except.ok (form_teams_w.map (fun p =>
      (p.1, { p.2 with form := if p.1 = 1 then []
        else parse_form p.1 (form_data_w p.1) }))) :=
  ⟨rfl, one_team_form_failure_tolerated form_api_w form_data_w form_teams_w 1 "Timeout" rfl
    (fun id h => by simp [form_api_w, form_data_w, if_neg h])⟩

/-- Effect events of the data-acquisition layer: a blocking delay or an
outbound api call. -/
inductive Event where
  | sleep (d : ℚ)
  | call
deriving DecidableEq, Repr

/-- Embeds the outbound behavior of one `api_request` (lines 190-213): one
`requests.get`; if that response is HTTP 429 the code sleeps for the
upstream-provided `X-RequestCounter-Reset` value (default 60, possibly 0)
and issues exactly one more `requests.get` (lines 198-202), after which any
non-200 response raises without further calls.  `none` models a first
response that is not 429 (one call); `some r` models a 429 whose reset value
is `r` (two calls separated by `sleep r`). -/
def api_request_events : Option ℚ → List Event
  | none => [Event.call]
  | some r => [Event.call, Event.sleep r, Event.call]

/-- Embeds `fetch_standings_cached` (lines 216-220) on a cache miss: one
`api_request`, no delay. -/
def standings_events (b : Option ℚ) : List Event :=
  api_request_events b

/-- Embeds `fetch_current_matchday` (lines 245-249) on a cache miss: one
`api_request`, no delay. -/
def matchday_events (b : Option ℚ) : List Event :=
  api_request_events b

/-- Embeds `fetch_matches_cached` (lines 252-259) on a cache miss: one
`api_request`, no delay. -/
def matches_events (b : Option ℚ) : List Event :=
  api_request_events b

/-- Embeds `fetch_team_form_cached` (lines 298-311) on a cache miss:
`time.sleep(REQUEST_DELAY)` and then one `api_request`. -/
def team_form_events (b : Option ℚ) : List Event :=
  Event.sleep REQUEST_DELAY :: api_request_events b

/-- Timestamps of the outbound calls of an event trace started at time `t`,
with calls instantaneous and `sleep d` advancing the clock by `d` (the
fastest — hence densest — execution the code allows). -/
def callTimes : List Event → ℚ → List ℚ
  | [], _ => []
  | Event.sleep d :: rest, t => callTimes rest (t + d)
  | Event.call :: rest, t => t :: callTimes rest t

/-- Number of calls of a trace falling in the rolling 60-second window
`[a, a + 60)`. -/
def countInWindow (ts : List ℚ) (a : ℚ) : ℕ :=
  (ts.filter (fun t => decide (a ≤ t ∧ t < a + 60))).length

/-- The form-loading pass of `compute_team_form`, all cache misses, with one
429-behavior per team. -/
def form_pass_trace (bs : List (Option ℚ)) : List Event :=
  (bs.map team_form_events).flatten

/-- A cold-start page load for an `n`-team league with form loading enabled,
in which every request succeeds at the first attempt (no 429s): standings,
current matchday, the form pass, then the matchday fixtures. -/
def cold_start_trace (n : ℕ) : List Event :=
  standings_events none ++ matchday_events none ++
    form_pass_trace (List.replicate n none) ++ matches_events none

/-- C7: counterexample.  On a cold start for an 18-team league with form
loading enabled and every request answered 200 at the first attempt, the
page performs the standings and current-matchday calls with no delay (the
`time.sleep` exists only in `fetch_team_form_cached`), so the first rolling
60-second window `[0, 60)` already contains 11 outbound calls — above the
10-calls-per-minute ceiling. -/
theorem rate_ceiling_exceeded_cold_start :
    10 < countInWindow (callTimes (cold_start_trace 18) 0) 0 := by
  have hL : callTimes (cold_start_trace 18) 0 =
      [0, 0, 13/2, 13, 39/2, 26, 65/2, 39, 91/2, 52, 117/2, 65, 143/2, 78, 169/2, 91,
       195/2, 104, 221/2, 117, 117] := by
    norm_num [cold_start_trace, form_pass_trace, standings_events, matchday_events,
      matches_events, team_form_events, api_request_events, callTimes, REQUEST_DELAY,
      List.replicate, List.flatten]
  rw [hL]
  norm_num [countInWindow, List.filter_cons]

/-- A list of timestamps spaced at least `REQUEST_DELAY` apart and contained
in a half-open interval of length `REQUEST_DELAY * k` has at most `k`
elements. -/
lemma length_le_of_spaced : ∀ (k : ℕ) (l : List ℚ) (lo : ℚ),
    l.Pairwise (fun x y => x + REQUEST_DELAY ≤ y) →
    (∀ y ∈ l, lo ≤ y ∧ y < lo + REQUEST_DELAY * k) →
    l.length ≤ k
  | _, [], _, _, _ => by simp
  | 0, x :: rest, lo, _, hin => by
    obtain ⟨h1, h2⟩ := hin x (List.mem_cons_self x rest)
    norm_num [REQUEST_DELAY] at h2
    exact absurd h2 (not_lt.mpr h1)
  | (k+1), x :: rest, lo, hp, hin => by
    rw [List.length_cons, Nat.succ_le_succ_iff]
    have hp2 := List.pairwise_cons.mp hp
    refine length_le_of_spaced k rest (x + REQUEST_DELAY) hp2.2 ?_
    intro y hy
    have hxy := hp2.1 y hy
    obtain ⟨hy1, hy2⟩ := hin y (List.mem_cons_of_mem x hy)
    obtain ⟨hx1, hx2⟩ := hin x (List.mem_cons_self x rest)
    refine ⟨hxy, ?_⟩
    have hcast : ((k + 1 : ℕ) : ℚ) = (k : ℚ) + 1 := by push_cast; ring
    rw [hcast, mul_add, mul_one] at hy2
    linarith

lemma form_pass_trace_succ (n : ℕ) :
    form_pass_trace (List.replicate (n + 1) (none : Option ℚ)) =
      team_form_events none ++ form_pass_trace (List.replicate n none) := by
  unfold form_pass_trace
  rw [List.replicate_succ, List.map_cons, List.flatten_cons]

/-- The call timestamps of a retry-free form pass started at time `t` are
`t + REQUEST_DELAY * (k + 1)` for `k < n`. -/
lemma callTimes_form_pass (n : ℕ) : ∀ t : ℚ,
    callTimes (form_pass_trace (List.replicate n (none : Option ℚ))) t =
      (List.range n).map (fun k : ℕ => t + REQUEST_DELAY * ((k : ℚ) + 1)) := by
  induction n with
  | zero => intro t; rfl
  | succ n ih =>
    intro t
    rw [form_pass_trace_succ]
    show (t + REQUEST_DELAY) ::
      callTimes (form_pass_trace (List.replicate n none)) (t + REQUEST_DELAY) = _
    rw [ih, List.range_succ_eq_map, List.map_cons, List.map_map]
    congr 1
    · norm_num
    · apply List.map_congr_left
      intro k _
      simp only [Function.comp]
      push_cast
      ring

lemma callTimes_form_pass_pairwise (n : ℕ) (t : ℚ) :
    (callTimes (form_pass_trace (List.replicate n (none : Option ℚ))) t).Pairwise
      (fun x y => x + REQUEST_DELAY ≤ y) := by
  rw [callTimes_form_pass]
  rw [List.pairwise_map]
  refine (List.pairwise_lt_range n).imp ?_
  intro a b hab
  have hc : (a : ℚ) + 1 ≤ (b : ℚ) := by exact_mod_cast Nat.succ_le_of_lt hab
  have hR : (0:ℚ) < REQUEST_DELAY := by norm_num [REQUEST_DELAY]
  nlinarith [mul_le_mul_of_nonneg_left hc hR.le]

/-- C7 (amended): the inter-call delay is applied only before the team-form
fetches, and the ceiling for a form-loading pass alone holds exactly in the
absence of rate-limit responses: when every request succeeds at the first
attempt, any rolling 60-second window `[a, a + 60)` contains at most 10
outbound calls, for any number of teams and any window start; but when the
upstream answers 429 with a zero reset value, the retry inside `api_request`
doubles the calls, and a form-only pass over 9 teams already places more
than 10 (namely 18) calls in the first window. -/
theorem form_pass_rate_ceiling :
    (∀ (n : ℕ) (a : ℚ),
      countInWindow (callTimes (form_pass_trace (List.replicate n none)) 0) a ≤ 10) ∧
    10 < countInWindow (callTimes (form_pass_trace (List.replicate 9 (some (0:ℚ)))) 0) 0 := by
  constructor
  · intro n a
    unfold countInWindow
    refine length_le_of_spaced 10 _ a ((callTimes_form_pass_pairwise n 0).filter _) ?_
    intro y hy
    have hmem := List.of_mem_filter hy
    have hP : a ≤ y ∧ y < a + 60 := of_decide_eq_true hmem
    refine ⟨hP.1, ?_⟩
    have h65 : REQUEST_DELAY * ((10:ℕ) : ℚ) = 65 := by norm_num [REQUEST_DELAY]
    linarith [hP.2, h65]
  · have hL : callTimes (form_pass_trace (List.replicate 9 (some (0:ℚ)))) 0 =
        [13/2, 13/2, 13, 13, 39/2, 39/2, 26, 26, 65/2, 65/2, 39, 39, 91/2, 91/2,
         52, 52, 117/2, 117/2] := by
      norm_num [form_pass_trace, team_form_events, api_request_events, callTimes,
        REQUEST_DELAY, List.replicate, List.flatten]
    rw [hL]
    norm_num [countInWindow, List.filter_cons]

end UpcomingMatches
